import Mathlib

/-!
Verification development for the soundsync repository.

The definitions below are shallow embeddings of the source files:
- src/src/communication/peer.ts (peer state machine, time-sync estimator,
  peerInfo duplicate resolution, waitForConnected)
- src/src/utils/vendor_integrations/airplay/airplayUdpSocket.ts (RTP header
  codec, NTP timestamp codec, timing responder, port acquisition, inbound
  dispatch)
- src/unnamed/part_000 (LocalDeviceSink.setDelayFromLocalNow)
- src/rendezvous-service/src/routes/wrtc_messenger.ts (message relay POST)

JavaScript numbers are modelled as rationals; machine integer coercions
(ToUint32, ToUint8, ToUint16) are made explicit with floor/truncation and
modular reduction.
-/

namespace SoundSync

/-- Modelled from the spec: the class BasicNumericStatsTracker lives in
src/utils/basicNumericStatsTracker.ts which is not among the sources; spec
section 4.A describes it as a fixed-capacity ring of samples where push
evicts the oldest sample on overflow. Samples are kept oldest first. -/
def trackerPush (capacity : ℕ) (samples : List ℚ) (x : ℚ) : List ℚ :=
  let appended := samples ++ [x]
  if capacity < appended.length then appended.drop (appended.length - capacity)
  else appended

/-- Modelled from the spec: full(k) is true when the ring holds at least k
samples (spec section 4.A). -/
def trackerFull (samples : List ℚ) (k : ℕ) : Bool :=
  decide (k ≤ samples.length)

/-- Modelled from the spec: median over the current contents, odd count takes
the exact middle of the sorted samples, even count averages the two middles
(spec section 4.A). The value on an empty ring is irrelevant to the callers
(they guard with full); we return 0 there. -/
def median (samples : List ℚ) : ℚ :=
  let sorted := List.insertionSort (· ≤ ·) samples
  let n := samples.length
  if n = 0 then 0
  else if n % 2 = 1 then sorted.getD (n / 2) 0
  else (sorted.getD (n / 2 - 1) 0 + sorted.getD (n / 2) 0) / 2

/-- src/src/communication/peer.ts line 22: TIME_DELTAS_TO_KEEP = 100. -/
def TIME_DELTAS_TO_KEEP : ℕ := 100

/-- src/src/communication/peer.ts line 25: MS_DIFF_TO_UPDATE_TIME_DELTA = 5. -/
def MS_DIFF_TO_UPDATE_TIME_DELTA : ℚ := 5

/-- src/src/communication/peer.ts line 27: TIMESYNC_INIT_REQUEST_COUNT = 10. -/
def TIMESYNC_INIT_REQUEST_COUNT : ℕ := 10

/-- The part of a Peer that the timekeepResponse handler touches: the ring of
time-delta samples and the committed timeDelta scalar (initially 0). -/
structure TimeSyncState where
  timedeltas : List ℚ
  timeDelta : ℚ
deriving DecidableEq

/-- Outcome of one timekeepResponse message: the updated state and which
events were emitted. -/
structure TimekeepResult where
  state : TimeSyncState
  timedeltaUpdated : Bool
  timesyncStateUpdated : Bool
deriving DecidableEq

/-- Embedding of the timekeepResponse handler, peer.ts lines 78-95.
sentAt and respondedAt are the message fields, receivedAt is now() at
receipt. -/
def handleTimekeepResponse (st : TimeSyncState) (sentAt respondedAt receivedAt : ℚ) :
    TimekeepResult :=
  let roundtripTime := receivedAt - sentAt
  let receivedByPeerAt := sentAt + roundtripTime / 2
  let delta := respondedAt - receivedByPeerAt
  let timedeltas := trackerPush TIME_DELTAS_TO_KEEP st.timedeltas delta
  if trackerFull timedeltas TIMESYNC_INIT_REQUEST_COUNT then
    let realTimeDelta := median timedeltas
    if |realTimeDelta - st.timeDelta| > MS_DIFF_TO_UPDATE_TIME_DELTA then
      { state := { timedeltas := timedeltas, timeDelta := realTimeDelta },
        timedeltaUpdated := true, timesyncStateUpdated := true }
    else
      { state := { timedeltas := timedeltas, timeDelta := st.timeDelta },
        timedeltaUpdated := false, timesyncStateUpdated := true }
  else
    { state := { timedeltas := timedeltas, timeDelta := st.timeDelta },
      timedeltaUpdated := false, timesyncStateUpdated := true }

/-- Peer.state values, peer.ts line 45. -/
inductive PeerState where
  | connecting
  | connected
  | deleted
deriving DecidableEq

/-- Embedding of Peer.setState, peer.ts lines 165-181: same state is a no-op,
and once deleted it is not possible to go back to another state. -/
def setState (s target : PeerState) : PeerState :=
  if s = target then s
  else if s = PeerState.deleted then s
  else target

/-- State effect of Peer.destroy, peer.ts lines 255-272: early return when
already deleted, otherwise setState('deleted'). -/
def destroyState (s : PeerState) : PeerState :=
  if s = PeerState.deleted then s else setState s PeerState.deleted

/-- A call that can change the peer state: setState with some target, or
destroy. -/
inductive PeerOp where
  | setStateOp (target : PeerState)
  | destroyOp
deriving DecidableEq

/-- Apply one call to a peer state. -/
def applyOp (s : PeerState) : PeerOp → PeerState
  | PeerOp.setStateOp target => setState s target
  | PeerOp.destroyOp => destroyState s

/-- Run a sequence of setState/destroy calls. -/
def runOps (s : PeerState) (ops : List PeerOp) : PeerState :=
  ops.foldl applyOp s

/-- Position of a state in the forward order Connecting, Connected, Deleted. -/
def stateRank : PeerState → ℕ
  | PeerState.connecting => 0
  | PeerState.connected => 1
  | PeerState.deleted => 2

/-- PeerDescriptor fields carried by a peerInfo message, peer.ts lines
304-312. -/
structure PeerDescriptor where
  uuid : String
  instanceUuid : String
  name : String
  version : String
  capacities : List String
deriving DecidableEq

/-- The per-peer fields that the peerInfo handler reads and writes. -/
structure PeerRecord where
  uuid : String
  instanceUuid : String
  name : String
  version : String
  capacities : List String
  state : PeerState
deriving DecidableEq

/-- State effect of Peer.destroy on a full record. -/
def destroyPeer (p : PeerRecord) : PeerRecord :=
  if p.state = PeerState.deleted then p
  else { p with state := setState p.state PeerState.deleted }

/-- Identity refresh and connection step of the peerInfo handler, peer.ts
lines 108-117: copy the descriptor fields, then setState('connected') when
not already connected. -/
def peerInfoProceed (self : PeerRecord) (msg : PeerDescriptor) : PeerRecord :=
  let s :=
    { self with
      instanceUuid := msg.instanceUuid
      name := msg.name
      capacities := msg.capacities
      uuid := msg.uuid
      version := msg.version }
  if s.state ≠ PeerState.connected then { s with state := setState s.state PeerState.connected }
  else s

/-- Result of a peerInfo exchange: the receiving (newcomer) peer, the
previously connected peer holding the same uuid when there was one, and
whether a destroy advertised itself to the remote side. -/
structure PeerInfoResult where
  self : PeerRecord
  existing : Option PeerRecord
  advertisedDestroy : Bool
deriving DecidableEq

/-- Embedding of the peerInfo handler, peer.ts lines 98-121. existing is
what getConnectedPeerByUuid(message.peer.uuid) returned. -/
def handlePeerInfo (self : PeerRecord) (existing : Option PeerRecord)
    (msg : PeerDescriptor) : PeerInfoResult :=
  match existing with
  | some existingPeer =>
    if existingPeer.instanceUuid = msg.instanceUuid then
      { self := destroyPeer self, existing := some existingPeer, advertisedDestroy := false }
    else
      { self := peerInfoProceed self msg
        existing := some (destroyPeer existingPeer)
        advertisedDestroy := true }
  | none =>
    { self := peerInfoProceed self msg, existing := none, advertisedDestroy := false }

/-- Embedding of the stateChange listener installed by Peer.waitForConnected,
peer.ts lines 211-220, run over the sequence of observed states at each
stateChange event: a state equal to connected makes the listener return
and keep listening; any other state removes the listener and resolves.
Returns the 1-based index of the event on which the promise resolved, or
none when it is still pending. -/
def waitForConnectedListener : List PeerState → Option ℕ
  | [] => none
  | s :: rest =>
    if s = PeerState.connected then (waitForConnectedListener rest).map (· + 1)
    else some 1

/-- Embedding of Peer.waitForConnected, peer.ts lines 207-221: resolve
immediately (index 0) when the state is already connected, otherwise run the
listener over the stateChange events. -/
def waitForConnected (state : PeerState) (events : List PeerState) : Option ℕ :=
  if state = PeerState.connected then some 0
  else waitForConnectedListener events

/-- The peer fields read by getCurrentTime, peer.ts lines 239-244. -/
structure PeerClock where
  isLocalPeer : Bool
  timedeltas : List ℚ
  timeDelta : ℚ
deriving DecidableEq

/-- Embedding of Peer.getCurrentTime, peer.ts lines 239-244, with now() made
the explicit argument t. -/
def getCurrentTime (p : PeerClock) (realDelta : Bool) (t : ℚ) : ℚ :=
  if p.isLocalPeer then t
  else t + (if realDelta then median p.timedeltas else p.timeDelta)

/-- The piped source fields read by setDelayFromLocalNow. -/
structure PipedSource where
  startedAt : ℚ
  latency : ℚ
  peer : PeerClock
deriving DecidableEq

/-- The sink fields touched by setDelayFromLocalNow: the piped source and the
shared scalar delayFromLocalNowBuffer[0]. -/
structure LocalDeviceSink where
  pipedSource : PipedSource
  delayFromLocalNow : ℚ
deriving DecidableEq

/-- Embedding of LocalDeviceSink.setDelayFromLocalNow, src/unnamed/part_000
lines 115-123, with now() made the explicit argument t. -/
def setDelayFromLocalNow (sink : LocalDeviceSink) (t : ℚ) : LocalDeviceSink :=
  { sink with
    delayFromLocalNow :=
      getCurrentTime sink.pipedSource.peer true t
        - sink.pipedSource.startedAt
        - sink.pipedSource.latency
        - t }

end SoundSync

namespace SoundSync

/-! AirPlay UDP socket embedding. -/

/-- The five member names of the TypeScript enum RTP_PAYLOAD_TYPES,
airplayUdpSocket.ts lines 15-21. -/
inductive PayloadName where
  | timingRequest
  | timingResponse
  | sync
  | rangeResend
  | audioData
deriving DecidableEq

/-- Reverse lookup RTP_PAYLOAD_TYPES[n] of a numeric payload type: the enum
member name when n is a declared value, undefined otherwise. -/
def payloadNameOf (n : ℕ) : Option PayloadName :=
  if n = 0x52 then some PayloadName.timingRequest
  else if n = 0x53 then some PayloadName.timingResponse
  else if n = 0x54 then some PayloadName.sync
  else if n = 0x55 then some PayloadName.rangeResend
  else if n = 0x60 then some PayloadName.audioData
  else none

/-- The numeric value of an enum member name. -/
def payloadValueOf : PayloadName → ℕ
  | PayloadName.timingRequest => 0x52
  | PayloadName.timingResponse => 0x53
  | PayloadName.sync => 0x54
  | PayloadName.rangeResend => 0x55
  | PayloadName.audioData => 0x60

/-- The JavaScript value found in the payloadType field of an RTP header
record: a number (as written by the senders), the enum member name string
(as produced by parseRtpHeader via the enum reverse map), or undefined. -/
inductive JsPayloadType where
  | num (n : ℕ)
  | name (nm : PayloadName)
  | undef
deriving DecidableEq

/-- Number(payloadType) as used by getRtpHeader, followed by the ToInt32 the
bitwise-or applies: a number stays itself, while an enum member name (a
non-numeric identifier string) and undefined both convert to NaN, which
ToInt32 maps to 0. -/
def jsNumberBits : JsPayloadType → ℕ
  | JsPayloadType.num n => n
  | JsPayloadType.name _ => 0
  | JsPayloadType.undef => 0

/-- The record produced by AirplayUdpSocket.parseRtpHeader, lines 84-90. -/
structure RtpHeader where
  extension : Bool
  source : ℕ
  payloadType : JsPayloadType
  marker : Bool
  seqnum : ℕ
deriving DecidableEq

/-- JavaScript exceptions that the transport code can raise. -/
inductive JsError where
  | rangeError
deriving DecidableEq

/-- Embedding of AirplayUdpSocket.parseRtpHeader, lines 77-92. A DataView
read past the end of the packet throws a RangeError; getUint16(2) needs at
least 4 bytes. Bytes are big-endian throughout. -/
def parseRtpHeader (bytes : List ℕ) : Except JsError RtpHeader :=
  if bytes.length < 4 then Except.error JsError.rangeError
  else
    let a := bytes.getD 0 0
    let b := bytes.getD 1 0
    Except.ok
      { extension := Nat.land a 0x10 != 0
        source := Nat.land a 0x0f
        payloadType :=
          match payloadNameOf (Nat.land b 0x7f) with
          | some nm => JsPayloadType.name nm
          | none => JsPayloadType.undef
        marker := Nat.land b 0x80 != 0
        seqnum := bytes.getD 2 0 * 256 + bytes.getD 3 0 }

/-- Embedding of AirplayUdpSocket.getRtpHeader, lines 93-102: byte 0 is the
extension bit or-ed with the source, byte 1 the marker bit or-ed with
Number(payloadType), bytes 2-3 the big-endian seqnum; setUint8 and setUint16
reduce their arguments modulo 2^8 and 2^16. -/
def getRtpHeader (h : RtpHeader) : List ℕ :=
  let a := Nat.lor (if h.extension then 0x10 else 0) h.source
  let b := Nat.lor (if h.marker then 0x80 else 0) (jsNumberBits h.payloadType)
  [a % 256, b % 256, h.seqnum % 65536 / 256, h.seqnum % 65536 % 256]

/-- JavaScript truncation toward zero, applied by ToUint32. -/
def jsTrunc (q : ℚ) : ℤ :=
  if 0 ≤ q then ⌊q⌋ else -⌊-q⌋

/-- ToUint32 on an integer: reduce into [0, 2^32). -/
def jsToUint32Int (n : ℤ) : ℕ :=
  (n % (2 ^ 32 : ℤ)).toNat

/-- ToUint32 on a JavaScript number. -/
def jsToUint32 (q : ℚ) : ℕ :=
  jsToUint32Int (jsTrunc q)

/-- Big-endian bytes of a 32-bit value (after ToUint32). -/
def u32be (n : ℕ) : List ℕ :=
  [n / 2 ^ 24 % 256, n / 2 ^ 16 % 256, n / 2 ^ 8 % 256, n % 256]

/-- Reassemble a big-endian 32-bit value from four bytes. -/
def beU32 (b0 b1 b2 b3 : ℕ) : ℕ :=
  ((b0 * 256 + b1) * 256 + b2) * 256 + b3

/-- Embedding of getNtpTimestamp, airplayUdpSocket.ts lines 112-120: integer
seconds Math.floor(time/1000) and fractional part scaled by 2^32, each
written as a big-endian uint32. -/
def getNtpTimestamp (time : ℚ) : List ℕ :=
  let integer : ℤ := ⌊time / 1000⌋
  let fraction : ℚ := (time / 1000 - (integer : ℚ)) * 2 ^ 32
  u32be (jsToUint32Int integer) ++ u32be (jsToUint32 fraction)

/-- Embedding of parseNtpTimestamp, airplayUdpSocket.ts lines 104-111,
reading the 8 bytes at the start of the given slice:
(integer + fraction / 2^32) * 1000. -/
def parseNtpTimestamp (bytes : List ℕ) : ℚ :=
  let integer := beU32 (bytes.getD 0 0) (bytes.getD 1 0) (bytes.getD 2 0) (bytes.getD 3 0)
  let fraction := beU32 (bytes.getD 4 0) (bytes.getD 5 0) (bytes.getD 6 0) (bytes.getD 7 0)
  ((integer : ℚ) + (fraction : ℚ) / 2 ^ 32) * 1000

/-- The record produced by packetParsers.timingRequest, lines 122-130. -/
structure TimingRequestParsed where
  referenceTime : ℚ
  receivedTime : ℚ
  sendTime : ℚ
deriving DecidableEq

/-- Embedding of packetParsers.timingRequest, lines 122-130: three NTP
timestamps at offsets 8, 16 and 24; any packet shorter than 32 bytes makes
one of the DataView reads throw a RangeError. -/
def packetParserTimingRequest (bytes : List ℕ) : Except JsError TimingRequestParsed :=
  if bytes.length < 32 then Except.error JsError.rangeError
  else
    Except.ok
      { referenceTime := parseNtpTimestamp (bytes.drop 8)
        receivedTime := parseNtpTimestamp (bytes.drop 16)
        sendTime := parseNtpTimestamp (bytes.drop 24) }

/-- Embedding of packetParsers.rangeResend, lines 131-134: two big-endian
uint16 reads at offsets 4 and 6; shorter packets throw a RangeError. -/
def packetParserRangeResend (bytes : List ℕ) : Except JsError (ℕ × ℕ) :=
  if bytes.length < 8 then Except.error JsError.rangeError
  else
    Except.ok
      (bytes.getD 4 0 * 256 + bytes.getD 5 0,
       bytes.getD 6 0 * 256 + bytes.getD 7 0)

/-- Bytes of the packet built by packetSender.timingResponse, lines 142-150:
a 32-byte buffer, the RTP header with payloadType overridden to 0x53,
4 untouched zero bytes, then the three NTP slots
[sendTime * 1000, currentTime, currentTime]. -/
def timingResponsePacket (orig : TimingRequestParsed) (origHeader : RtpHeader)
    (currentTime : ℚ) : List ℕ :=
  getRtpHeader { origHeader with payloadType := JsPayloadType.num 0x53 }
    ++ [0, 0, 0, 0]
    ++ getNtpTimestamp (orig.sendTime * 1000)
    ++ getNtpTimestamp currentTime
    ++ getNtpTimestamp currentTime

/-- Embedding of packetSender.timingResponse, lines 138-152: refuse (send
nothing) while clientPort is still -1, otherwise send the packet. -/
def timingResponse (clientPort : ℤ) (orig : TimingRequestParsed)
    (origHeader : RtpHeader) (currentTime : ℚ) : Option (List ℕ) :=
  if clientPort = -1 then none
  else some (timingResponsePacket orig origHeader currentTime)

/-- Payload handed to the emitted events by the socket message handler. -/
inductive ParsedPacket where
  | timing (p : TimingRequestParsed)
  | resend (missedSeq missedCount : ℕ)
deriving DecidableEq

/-- What the socket message handler, lines 35-40, makes visible: the typed
emit key (the parsed payloadType, possibly undefined), the parsed message
(undefined when no parser matched), and the parsed header; both the typed
event and the generic message event carry the same payload. -/
structure EmittedMessage where
  typedKey : JsPayloadType
  parsed : Option ParsedPacket
  header : RtpHeader
deriving DecidableEq

/-- Embedding of the socket message handler, lines 35-40: parse the header,
run the parser registered for the payload type when there is one
(packetParsers has entries only for timingRequest and rangeResend), then
emit. A thrown RangeError escapes the handler. -/
def processMessage (bytes : List ℕ) : Except JsError EmittedMessage :=
  match parseRtpHeader bytes with
  | Except.error e => Except.error e
  | Except.ok header =>
    match header.payloadType with
    | JsPayloadType.name PayloadName.timingRequest =>
      (packetParserTimingRequest bytes).map fun p =>
        { typedKey := header.payloadType, parsed := some (ParsedPacket.timing p), header := header }
    | JsPayloadType.name PayloadName.rangeResend =>
      (packetParserRangeResend bytes).map fun p =>
        { typedKey := header.payloadType, parsed := some (ParsedPacket.resend p.1 p.2), header := header }
    | _ =>
      Except.ok { typedKey := header.payloadType, parsed := none, header := header }

/-- Outcome of one socket.bind attempt. -/
inductive BindOutcome where
  | ok
  | addrInUse
  | err (code : String)
deriving DecidableEq

/-- How bindToPort can fail: a rethrown non-EADDRINUSE error, or the loop
still running when the modelling fuel runs out. -/
inductive BindErr where
  | thrown (code : String)
  | outOfFuel
deriving DecidableEq

/-- Embedding of AirplayUdpSocket.bindToPort, lines 43-71: starting from the
base port, bind; on success stop with serverPort = the bound port; on
EADDRINUSE increment serverPort and retry; rethrow any other error. The
source loop is while(true); fuel bounds the recursion in the model. -/
def bindToPort (outcome : ℕ → BindOutcome) : ℕ → ℕ → Except BindErr ℕ
  | _, 0 => Except.error BindErr.outOfFuel
  | port, fuel + 1 =>
    match outcome port with
    | BindOutcome.ok => Except.ok port
    | BindOutcome.addrInUse => bindToPort outcome (port + 1) fuel
    | BindOutcome.err code => Except.error (BindErr.thrown code)

end SoundSync

namespace SoundSync

/-! Rendezvous relay POST handler embedding. -/

/-- A koa request body: the string the claim is about, or any non-string
value. -/
inductive RequestBody where
  | str (s : String)
  | nonString
deriving DecidableEq

/-- Partial model of the JavaScript ToNumber conversion on strings, enough
for the inputs considered here: the empty string converts to 0, a string of
decimal digits converts to its value, and any other string converts to NaN
(represented as none). -/
def jsToNumber (s : String) : Option ℚ :=
  if s.data = [] then some 0
  else if s.data.all Char.isDigit then
    some ((s.data.foldl (fun acc c => acc * 10 + (c.toNat - 48)) 0 : ℕ) : ℚ)
  else none

/-- The JavaScript comparison s < n for a string s and number n: ToNumber(s)
compared with n, false when ToNumber(s) is NaN. This is the comparison the
route performs on the conversation id. -/
def jsLtNum (s : String) (bound : ℚ) : Bool :=
  match jsToNumber s with
  | some q => decide (q < bound)
  | none => false

/-- HTTP status and resulting stored list for one POST. -/
structure PostResult where
  status : ℕ
  store : List String
deriving DecidableEq

/-- Embedding of the POST /api/conversations/:id/messages handler,
wrtc_messenger.ts lines 19-33: assert the body is a string, assert
message.length < 1024, assert conversationId < 64 (a string-to-number
comparison in the source), then lpush the message and answer 204; any failed
assert answers 400 and leaves the store unchanged. -/
def postConversationMessage (body : RequestBody) (id : String)
    (store : List String) : PostResult :=
  match body with
  | RequestBody.nonString => { status := 400, store := store }
  | RequestBody.str message =>
    if message.length < 1024 then
      if jsLtNum id 64 then { status := 204, store := message :: store }
      else { status := 400, store := store }
    else { status := 400, store := store }

end SoundSync

namespace SoundSync

/-! Helper lemmas. -/

theorem applyOp_deleted (op : PeerOp) : applyOp PeerState.deleted op = PeerState.deleted := by
  cases op with
  | setStateOp target => cases target <;> rfl
  | destroyOp => rfl

theorem trackerPush_length_le (capacity : ℕ) (samples : List ℚ) (x : ℚ)
    (h : samples.length ≤ capacity) :
    (trackerPush capacity samples x).length ≤ capacity := by
  unfold trackerPush
  by_cases hc : capacity < (samples ++ [x]).length
  · simp only [if_pos hc, List.length_drop]
    omega
  · simp only [if_neg hc]
    omega

end SoundSync

namespace SoundSync

/-- C3: the claim quantifies over every sequence of setState and destroy
calls and asserts that only forward transitions ever occur; the code
refutes the forward-only part: setState('connecting') on a peer in state
'connected' is accepted (setState only guards against the same state and
against leaving 'deleted'), producing the backward transition
connected to connecting, as the run [setState connected, setState
connecting] from the initial state shows. -/
theorem setState_backward_transition :
    runOps PeerState.connecting
        [PeerOp.setStateOp PeerState.connected, PeerOp.setStateOp PeerState.connecting]
      = PeerState.connecting
    ∧ setState PeerState.connected PeerState.connecting = PeerState.connecting
    ∧ stateRank PeerState.connecting < stateRank PeerState.connected := by
  decide

/-- C3 (amended): once a peer state is 'deleted' no sequence of setState and
destroy calls changes it, and all transitions are forward (the rank in
Connecting, Connected, Deleted never decreases) provided setState is only
invoked with targets 'connected' or 'deleted', the only targets the code
passes; destroy is always forward. -/
theorem deleted_terminal_and_forward :
    (∀ ops : List PeerOp, runOps PeerState.deleted ops = PeerState.deleted)
    ∧ (∀ s target : PeerState, target ≠ PeerState.connecting →
        stateRank s ≤ stateRank (setState s target))
    ∧ (∀ s : PeerState, stateRank s ≤ stateRank (destroyState s)) := by
  refine ⟨?_, ?_, ?_⟩
  · intro ops
    induction ops with
    | nil => rfl
    | cons op rest ih =>
      show List.foldl applyOp (applyOp PeerState.deleted op) rest = PeerState.deleted
      rw [applyOp_deleted]
      exact ih
  · intro s target h
    cases s <;> cases target <;> first
      | exact absurd rfl h
      | decide
  · intro s
    cases s <;> decide

theorem deleted_terminal_and_forward_witness :
    runOps PeerState.deleted
        [PeerOp.setStateOp PeerState.connected, PeerOp.destroyOp] = PeerState.deleted
    ∧ (PeerState.connected ≠ PeerState.connecting
        ∧ stateRank PeerState.connecting
            ≤ stateRank (setState PeerState.connecting PeerState.connected))
    ∧ stateRank PeerState.connected ≤ stateRank (destroyState PeerState.connected) := by
  refine ⟨deleted_terminal_and_forward.1 _, ⟨by decide, ?_⟩, deleted_terminal_and_forward.2.2 _⟩
  exact deleted_terminal_and_forward.2.1 PeerState.connecting PeerState.connected (by decide)

end SoundSync

namespace SoundSync

/-- C10: waitForConnected resolves immediately (index 0) when the peer is
already connected; otherwise the installed stateChange listener returns
without resolving on every event where the state is 'connected' and resolves
on the first event where the state differs from 'connected', which for a
connecting peer is the transition to 'deleted', not the transition to
'connected'. The resolution index is therefore the index of the first
non-connected event. -/
theorem waitForConnected_behavior (st : PeerState) (events : List PeerState)
    (h : st ≠ PeerState.connected) :
    waitForConnected PeerState.connected events = some 0
    ∧ waitForConnected st events
        = (events.findIdx? (fun s => decide (s ≠ PeerState.connected))).map (· + 1) := by
  constructor
  · rfl
  · rw [waitForConnected, if_neg h]
    induction events with
    | nil => rfl
    | cons e rest ih =>
      simp only [waitForConnectedListener, List.findIdx?_cons]
      by_cases he : e = PeerState.connected
      · subst he
        rw [if_pos rfl, ih]
        simp [Option.map_map]
      · rw [if_neg he]
        simp [he]

theorem waitForConnected_behavior_witness :
    waitForConnected PeerState.connecting [PeerState.connected, PeerState.deleted] = some 2 := by
  refine ((waitForConnected_behavior PeerState.connecting
    [PeerState.connected, PeerState.deleted] (by decide)).2).trans ?_
  decide

end SoundSync

namespace SoundSync

/-- C6: immediately after every invocation of setDelayFromLocalNow (the sink
resync run on timedeltaUpdated, on source update and once per second), the
shared scalar equals peer.getCurrentTime(true) minus source.startedAt minus
source.latency minus now(); for a remote peer this is the ring median minus
startedAt minus latency, independent of now(). -/
theorem delayFromLocalNow_resync (sink : LocalDeviceSink) (t : ℚ) :
    ((setDelayFromLocalNow sink t).delayFromLocalNow
      = getCurrentTime sink.pipedSource.peer true t
          - sink.pipedSource.startedAt - sink.pipedSource.latency - t)
    ∧ (sink.pipedSource.peer.isLocalPeer = false →
        (setDelayFromLocalNow sink t).delayFromLocalNow
          = median sink.pipedSource.peer.timedeltas
              - sink.pipedSource.startedAt - sink.pipedSource.latency) := by
  constructor
  · rfl
  · intro hl
    show getCurrentTime sink.pipedSource.peer true t
        - sink.pipedSource.startedAt - sink.pipedSource.latency - t = _
    rw [getCurrentTime, if_neg (by simp [hl]), if_pos rfl]
    ring

/-- A sink with a remote peer, used to instantiate the resync theorem. -/
def sinkExample : LocalDeviceSink :=
  { pipedSource :=
      { startedAt := 2
        latency := 1
        peer := { isLocalPeer := false, timedeltas := [7], timeDelta := 0 } }
    delayFromLocalNow := 0 }

theorem delayFromLocalNow_resync_witness :
    sinkExample.pipedSource.peer.isLocalPeer = false
    ∧ (setDelayFromLocalNow sinkExample 3).delayFromLocalNow
        = median sinkExample.pipedSource.peer.timedeltas
            - sinkExample.pipedSource.startedAt - sinkExample.pipedSource.latency :=
  ⟨rfl, (delayFromLocalNow_resync sinkExample 3).2 rfl⟩

end SoundSync

namespace SoundSync

/-- C9: the claim says the POST handler accepts exactly the requests whose
body is a string of at most 1024 characters and whose conversation id is a
string of at most 64 characters. The code instead evaluates conversationId
< 64 as a JavaScript string-to-number comparison, so the non-numeric id
"abc" (3 characters) with the 5-character body "hello" is rejected with
status 400 and the store untouched, where the claim requires 204. -/
theorem postConversationMessage_rejects_short_id :
    ("hello".length < 1024 ∧ "abc".length < 64)
    ∧ postConversationMessage (RequestBody.str "hello") "abc" []
        = { status := 400, store := [] } := by
  exact ⟨by decide, rfl⟩

end SoundSync

namespace SoundSync

/-- C7: starting at the base port p, while every attempted port up to q
fails with EADDRINUSE the loop increments and retries; it returns
successfully with serverPort equal to the first port q whose bind succeeds,
and if the attempt at q fails with an error whose code is not EADDRINUSE,
that error is rethrown and the call fails. -/
theorem bindToPort_first_free (outcome : ℕ → BindOutcome) (p q fuel : ℕ)
    (hpq : p ≤ q) (hfuel : q - p < fuel)
    (hbusy : ∀ r, p ≤ r → r < q → outcome r = BindOutcome.addrInUse) :
    (outcome q = BindOutcome.ok → bindToPort outcome p fuel = Except.ok q)
    ∧ ∀ code, outcome q = BindOutcome.err code →
        bindToPort outcome p fuel = Except.error (BindErr.thrown code) := by
  induction fuel generalizing p with
  | zero => omega
  | succ n ih =>
    by_cases hpq2 : p = q
    · subst hpq2
      constructor
      · intro hok
        simp only [bindToPort, hok]
      · intro code herr
        simp only [bindToPort, herr]
    · have hlt : p < q := lt_of_le_of_ne hpq hpq2
      have hp : outcome p = BindOutcome.addrInUse := hbusy p le_rfl hlt
      have ihres := ih (p + 1) (by omega) (by omega) (fun r h1 h2 => hbusy r (by omega) h2)
      constructor
      · intro hok
        simp only [bindToPort, hp]
        exact ihres.1 hok
      · intro code herr
        simp only [bindToPort, hp]
        exact ihres.2 code herr

/-- Bind outcomes where ports 7000 and 7001 are occupied and 7002 is free. -/
def bindBusyBelow : ℕ → BindOutcome :=
  fun port => if port < 7002 then BindOutcome.addrInUse else BindOutcome.ok

/-- Bind outcomes where ports 7000 and 7001 are occupied and 7002 fails with
an error that is not EADDRINUSE. -/
def bindFatalAt : ℕ → BindOutcome :=
  fun port => if port < 7002 then BindOutcome.addrInUse else BindOutcome.err "EACCES"

theorem bindToPort_first_free_witness :
    bindToPort bindBusyBelow 7000 10 = Except.ok 7002
    ∧ bindToPort bindFatalAt 7000 10 = Except.error (BindErr.thrown "EACCES") := by
  constructor
  · exact (bindToPort_first_free bindBusyBelow 7000 7002 10 (by decide) (by decide)
      (fun r h1 h2 => by unfold bindBusyBelow; rw [if_pos h2])).1 (by decide)
  · exact (bindToPort_first_free bindFatalAt 7000 7002 10 (by decide) (by decide)
      (fun r h1 h2 => by unfold bindFatalAt; rw [if_pos h2])).2 "EACCES" (by decide)

end SoundSync

namespace SoundSync

theorem setState_deleted (s : PeerState) : setState s PeerState.deleted = PeerState.deleted := by
  cases s <;> rfl

theorem destroyPeer_state (p : PeerRecord) : (destroyPeer p).state = PeerState.deleted := by
  unfold destroyPeer
  by_cases h : p.state = PeerState.deleted
  · rw [if_pos h]
    exact h
  · rw [if_neg h]
    exact setState_deleted p.state

theorem peerInfoProceed_state (self : PeerRecord) (msg : PeerDescriptor)
    (h : self.state ≠ PeerState.deleted) :
    (peerInfoProceed self msg).state = PeerState.connected := by
  cases hs : self.state with
  | connecting => simp [peerInfoProceed, hs, setState]
  | connected => simp [peerInfoProceed, hs]
  | deleted => exact absurd hs h

theorem peerInfoProceed_uuid (self : PeerRecord) (msg : PeerDescriptor) :
    (peerInfoProceed self msg).uuid = msg.uuid := by
  simp only [peerInfoProceed]
  split <;> rfl

/-- C2: on peerInfo with an already connected peer of the same stable uuid,
matching instance uuids destroy the newcomer and leave the existing peer
untouched, while differing instance uuids destroy the existing peer with
advertise_destroy=true and let the newcomer reach Connected (carrying the
message uuid); in both cases at most one of the two peers holding that uuid
remains Connected. -/
theorem handlePeerInfo_duplicate_resolution (self existingPeer : PeerRecord)
    (msg : PeerDescriptor)
    (hself : self.state ≠ PeerState.deleted)
    (hconn : existingPeer.state = PeerState.connected)
    (huuid : existingPeer.uuid = msg.uuid) :
    (existingPeer.instanceUuid = msg.instanceUuid →
      (handlePeerInfo self (some existingPeer) msg).self.state = PeerState.deleted
      ∧ (handlePeerInfo self (some existingPeer) msg).existing = some existingPeer
      ∧ (handlePeerInfo self (some existingPeer) msg).advertisedDestroy = false)
    ∧ (existingPeer.instanceUuid ≠ msg.instanceUuid →
      (handlePeerInfo self (some existingPeer) msg).existing
          = some { existingPeer with state := PeerState.deleted }
      ∧ (handlePeerInfo self (some existingPeer) msg).advertisedDestroy = true
      ∧ (handlePeerInfo self (some existingPeer) msg).self.state = PeerState.connected
      ∧ (handlePeerInfo self (some existingPeer) msg).self.uuid = msg.uuid)
    ∧ ¬((handlePeerInfo self (some existingPeer) msg).self.state = PeerState.connected
        ∧ ∃ e, (handlePeerInfo self (some existingPeer) msg).existing = some e
            ∧ e.state = PeerState.connected) := by
  by_cases hdup : existingPeer.instanceUuid = msg.instanceUuid
  · have hred : handlePeerInfo self (some existingPeer) msg
        = { self := destroyPeer self, existing := some existingPeer
            advertisedDestroy := false } := by
      simp only [handlePeerInfo, if_pos hdup]
    rw [hred]
    refine ⟨fun _ => ⟨destroyPeer_state self, rfl, rfl⟩, fun hne => absurd hdup hne, ?_⟩
    rintro ⟨hc, -⟩
    have hc2 : (destroyPeer self).state = PeerState.connected := hc
    rw [destroyPeer_state self] at hc2
    exact PeerState.noConfusion hc2
  · have hred : handlePeerInfo self (some existingPeer) msg
        = { self := peerInfoProceed self msg, existing := some (destroyPeer existingPeer)
            advertisedDestroy := true } := by
      simp only [handlePeerInfo, if_neg hdup]
    have hexdel : destroyPeer existingPeer = { existingPeer with state := PeerState.deleted } := by
      unfold destroyPeer
      rw [if_neg (by rw [hconn]; exact fun h => PeerState.noConfusion h)]
      rw [setState_deleted]
    rw [hred]
    refine ⟨fun heq => absurd heq hdup, fun _ => ⟨by rw [hexdel], rfl,
      peerInfoProceed_state self msg hself, peerInfoProceed_uuid self msg⟩, ?_⟩
    rintro ⟨-, e, he, hestate⟩
    have he2 : some (destroyPeer existingPeer) = some e := he
    rw [Option.some_inj] at he2
    rw [← he2, destroyPeer_state] at hestate
    exact PeerState.noConfusion hestate

/-- Newcomer link for the witness: still connecting, fresh instance uuid. -/
def peerSelfW : PeerRecord :=
  { uuid := "u1", instanceUuid := "i2", name := "n", version := "v"
    capacities := [], state := PeerState.connecting }

/-- Incumbent connected peer with the same stable uuid, older instance. -/
def peerExistingW : PeerRecord :=
  { uuid := "u1", instanceUuid := "i1", name := "n", version := "v"
    capacities := [], state := PeerState.connected }

/-- peerInfo descriptor announcing the new instance of peer u1. -/
def peerMsgW : PeerDescriptor :=
  { uuid := "u1", instanceUuid := "i2", name := "n2", version := "v2", capacities := [] }

theorem handlePeerInfo_duplicate_resolution_witness :
    (handlePeerInfo peerSelfW (some peerExistingW) peerMsgW).existing
        = some { peerExistingW with state := PeerState.deleted }
    ∧ (handlePeerInfo peerSelfW (some peerExistingW) peerMsgW).advertisedDestroy = true
    ∧ (handlePeerInfo peerSelfW (some peerExistingW) peerMsgW).self.state = PeerState.connected
    ∧ (handlePeerInfo peerSelfW (some peerExistingW) peerMsgW).self.uuid = peerMsgW.uuid :=
  (handlePeerInfo_duplicate_resolution peerSelfW peerExistingW peerMsgW
    (by decide) (by decide) (by decide)).2.1 (by decide)

end SoundSync

namespace SoundSync

/-- C1: on a timekeepResponse, the committed timeDelta is reassigned exactly
when the ring (after pushing the new sample) holds at least
TIMESYNC_INIT_REQUEST_COUNT samples and its median differs from the
committed value by strictly more than MS_DIFF_TO_UPDATE_TIME_DELTA; right
after a reassignment the committed value equals the ring median;
timedeltaUpdated is emitted exactly on reassignment; and the ring never
grows beyond TIME_DELTAS_TO_KEEP samples. -/
theorem timekeepResponse_update_discipline (st : TimeSyncState)
    (sentAt respondedAt receivedAt : ℚ)
    (hlen : st.timedeltas.length ≤ TIME_DELTAS_TO_KEEP) :
    ((handleTimekeepResponse st sentAt respondedAt receivedAt).timedeltaUpdated = true
        ↔ (handleTimekeepResponse st sentAt respondedAt receivedAt).state.timeDelta
            ≠ st.timeDelta)
    ∧ ((handleTimekeepResponse st sentAt respondedAt receivedAt).timedeltaUpdated = true →
        TIMESYNC_INIT_REQUEST_COUNT
            ≤ (handleTimekeepResponse st sentAt respondedAt receivedAt).state.timedeltas.length
        ∧ |median (handleTimekeepResponse st sentAt respondedAt receivedAt).state.timedeltas
              - st.timeDelta| > MS_DIFF_TO_UPDATE_TIME_DELTA
        ∧ (handleTimekeepResponse st sentAt respondedAt receivedAt).state.timeDelta
            = median (handleTimekeepResponse st sentAt respondedAt receivedAt).state.timedeltas)
    ∧ (handleTimekeepResponse st sentAt respondedAt receivedAt).state.timedeltas.length
        ≤ TIME_DELTAS_TO_KEEP := by
  have hpush := trackerPush_length_le TIME_DELTAS_TO_KEEP st.timedeltas
    (respondedAt - (sentAt + (receivedAt - sentAt) / 2)) hlen
  simp only [handleTimekeepResponse]
  split
  next hfull =>
    split
    next hdiff =>
      have hne : ¬ median (trackerPush TIME_DELTAS_TO_KEEP st.timedeltas
          (respondedAt - (sentAt + (receivedAt - sentAt) / 2))) = st.timeDelta := by
        intro heq
        rw [heq, sub_self, abs_zero, MS_DIFF_TO_UPDATE_TIME_DELTA] at hdiff
        norm_num at hdiff
      have hfull2 : TIMESYNC_INIT_REQUEST_COUNT ≤ (trackerPush TIME_DELTAS_TO_KEEP st.timedeltas
          (respondedAt - (sentAt + (receivedAt - sentAt) / 2))).length := by
        unfold trackerFull at hfull
        exact of_decide_eq_true hfull
      exact ⟨⟨fun _ => hne, fun _ => rfl⟩, fun _ => ⟨hfull2, hdiff, rfl⟩, hpush⟩
    next hdiff =>
      exact ⟨by simp, fun h => Bool.noConfusion h, hpush⟩
  next hfull =>
    exact ⟨by simp, fun h => Bool.noConfusion h, hpush⟩

end SoundSync

namespace SoundSync

/-! Byte-level bridge lemmas for the RTP header codec. -/

theorem parseRtpHeader_four (b0 b1 b2 b3 : ℕ) :
    parseRtpHeader [b0, b1, b2, b3]
      = Except.ok
          { extension := Nat.land b0 0x10 != 0
            source := Nat.land b0 0x0f
            payloadType :=
              match payloadNameOf (Nat.land b1 0x7f) with
              | some nm => JsPayloadType.name nm
              | none => JsPayloadType.undef
            marker := Nat.land b1 0x80 != 0
            seqnum := b2 * 256 + b3 } := rfl

theorem getRtpHeader_eq (h : RtpHeader) :
    getRtpHeader h
      = [Nat.lor (if h.extension then 0x10 else 0) h.source % 256,
         Nat.lor (if h.marker then 0x80 else 0) (jsNumberBits h.payloadType) % 256,
         h.seqnum % 65536 / 256, h.seqnum % 65536 % 256] := rfl

theorem lor_ext_lt (e : Bool) (s : ℕ) (hs : s < 16) :
    Nat.lor (if e then 16 else 0) s % 256 = Nat.lor (if e then 16 else 0) s := by
  cases e <;> interval_cases s <;> decide

theorem land_lor_ext_hi (e : Bool) (s : ℕ) (hs : s < 16) :
    Nat.land (Nat.lor (if e then 16 else 0) s) 16 = if e then 16 else 0 := by
  cases e <;> interval_cases s <;> decide

theorem land_lor_ext_lo (e : Bool) (s : ℕ) (hs : s < 16) :
    Nat.land (Nat.lor (if e then 16 else 0) s) 15 = s := by
  cases e <;> interval_cases s <;> decide

theorem lor_marker_lt (m : Bool) (p : ℕ) (hp : p < 128) :
    Nat.lor (if m then 128 else 0) p % 256 = Nat.lor (if m then 128 else 0) p := by
  cases m <;> interval_cases p <;> decide

theorem land_lor_marker_hi (m : Bool) (p : ℕ) (hp : p < 128) :
    Nat.land (Nat.lor (if m then 128 else 0) p) 128 = if m then 128 else 0 := by
  cases m <;> interval_cases p <;> decide

theorem land_lor_marker_lo (m : Bool) (p : ℕ) (hp : p < 128) :
    Nat.land (Nat.lor (if m then 128 else 0) p) 127 = p := by
  cases m <;> interval_cases p <;> decide

theorem ite_sixteen_bne_zero (e : Bool) : ((if e then (16 : ℕ) else 0) != 0) = e := by
  cases e <;> decide

theorem ite_marker_bne_zero (m : Bool) : ((if m then (128 : ℕ) else 0) != 0) = m := by
  cases m <;> decide

/-- A header record with a numeric payload type, as the senders build them. -/
def rtpHeaderNum52 : RtpHeader :=
  { extension := false, source := 0, payloadType := JsPayloadType.num 0x52
    marker := false, seqnum := 0 }

/-- The record that parsing the encoding of rtpHeaderNum52 produces: the
payload type has become the enum member name. -/
def rtpHeaderName52 : RtpHeader :=
  { extension := false, source := 0, payloadType := JsPayloadType.name PayloadName.timingRequest
    marker := false, seqnum := 0 }

/-- C5: the claimed identity parse(encode(h)) = h fails on the payload type
field. The TypeScript enum reverse lookup makes parseRtpHeader return the
member name (a string) for the payload type, so encoding the header with
numeric payload type 0x52 and parsing it back yields the name
timingRequest, not the number 0x52, and the records differ. -/
theorem rtp_roundtrip_not_identity :
    parseRtpHeader (getRtpHeader rtpHeaderNum52) = Except.ok rtpHeaderName52
    ∧ parseRtpHeader (getRtpHeader rtpHeaderNum52) ≠ Except.ok rtpHeaderNum52 := by
  refine ⟨rfl, fun h => ?_⟩
  have h2 : rtpHeaderName52 = rtpHeaderNum52 := by
    have h1 : Except.ok (ε := JsError) rtpHeaderName52 = Except.ok rtpHeaderNum52 :=
      Eq.trans (Eq.symm rfl) h
    injection h1
  exact absurd h2 (by decide)

/-- C5 (amended): for every header with extension and marker bits, source in
[0,15], seqnum in [0,65535] and a numeric payload type p in the known set,
parsing the 4-byte encoding restores extension, source, marker and seqnum
exactly, and maps the payload type to the enum member name of p (the enum
reverse lookup), rather than to the number p itself. -/
theorem rtp_roundtrip_fields (e m : Bool) (s q p : ℕ) (nm : PayloadName)
    (hs : s < 16) (hq : q < 65536) (hp : payloadNameOf p = some nm) :
    parseRtpHeader (getRtpHeader
        { extension := e, source := s, payloadType := JsPayloadType.num p
          marker := m, seqnum := q })
      = Except.ok
          { extension := e, source := s, payloadType := JsPayloadType.name nm
            marker := m, seqnum := q } := by
  have hp128 : p < 128 := by
    unfold payloadNameOf at hp
    split_ifs at hp <;> omega
  rw [getRtpHeader_eq]
  dsimp only [jsNumberBits]
  rw [parseRtpHeader_four]
  rw [lor_ext_lt e s hs, lor_marker_lt m p hp128,
    land_lor_ext_hi e s hs, land_lor_ext_lo e s hs,
    land_lor_marker_hi m p hp128, land_lor_marker_lo m p hp128,
    hp, ite_sixteen_bne_zero, ite_marker_bne_zero]
  simp only [Except.ok.injEq, RtpHeader.mk.injEq, true_and, and_true]
  omega

theorem rtp_roundtrip_fields_witness :
    parseRtpHeader (getRtpHeader
        { extension := true, source := 7, payloadType := JsPayloadType.num 0x54
          marker := true, seqnum := 300 })
      = Except.ok
          { extension := true, source := 7, payloadType := JsPayloadType.name PayloadName.sync
            marker := true, seqnum := 300 } :=
  rtp_roundtrip_fields true true 7 300 0x54 PayloadName.sync (by decide) (by decide) (by decide)

end SoundSync

namespace SoundSync

/-- C8: the claim says every malformed RTP packet (unknown payload type or
short length) is silently dropped and never throws; but a datagram shorter
than the 4-byte header makes the DataView reads of parseRtpHeader throw a
RangeError that escapes the socket message handler, as the 3-byte packet
shows. -/
theorem processMessage_short_packet_throws :
    processMessage [0x80, 0x52, 0] = Except.error JsError.rangeError
    ∧ ([0x80, 0x52, 0] : List ℕ).length < 4 :=
  ⟨rfl, by decide⟩

/-- C8 (amended): a datagram of at least 4 bytes whose payload type is not
in the known set is processed without throwing: no type-specific parser
runs, the typed emit key is undefined, and the higher layer only observes
the generic message event carrying an undefined parsed payload (and the
parsed header); a datagram shorter than a full 4-byte header instead makes
header parsing throw a RangeError. -/
theorem processMessage_malformed (bytes : List ℕ) :
    (4 ≤ bytes.length →
      payloadNameOf (Nat.land (bytes.getD 1 0) 0x7f) = none →
      processMessage bytes
        = Except.ok
            { typedKey := JsPayloadType.undef
              parsed := none
              header :=
                { extension := Nat.land (bytes.getD 0 0) 0x10 != 0
                  source := Nat.land (bytes.getD 0 0) 0x0f
                  payloadType := JsPayloadType.undef
                  marker := Nat.land (bytes.getD 1 0) 0x80 != 0
                  seqnum := bytes.getD 2 0 * 256 + bytes.getD 3 0 } })
    ∧ (bytes.length < 4 → processMessage bytes = Except.error JsError.rangeError) := by
  constructor
  · intro hlen hunk
    have hR : parseRtpHeader bytes
        = Except.ok
            { extension := Nat.land (bytes.getD 0 0) 0x10 != 0
              source := Nat.land (bytes.getD 0 0) 0x0f
              payloadType := JsPayloadType.undef
              marker := Nat.land (bytes.getD 1 0) 0x80 != 0
              seqnum := bytes.getD 2 0 * 256 + bytes.getD 3 0 } := by
      simp only [parseRtpHeader]
      rw [if_neg (by omega), hunk]
    unfold processMessage
    rw [hR]
  · intro hlen
    have hE : parseRtpHeader bytes = Except.error JsError.rangeError := by
      simp only [parseRtpHeader]
      rw [if_pos hlen]
    unfold processMessage
    rw [hE]

theorem processMessage_malformed_witness :
    processMessage [0, 0x7f, 0, 0]
        = Except.ok
            { typedKey := JsPayloadType.undef
              parsed := none
              header :=
                { extension := false, source := 0, payloadType := JsPayloadType.undef
                  marker := false, seqnum := 0 } }
    ∧ processMessage [1, 2, 3] = Except.error JsError.rangeError :=
  ⟨(processMessage_malformed [0, 0x7f, 0, 0]).1 (by decide) (by decide),
   (processMessage_malformed [1, 2, 3]).2 (by decide)⟩

end SoundSync

namespace SoundSync

/-- Nine samples at 100 ms, committed delta still 0. -/
def timeSyncW : TimeSyncState :=
  { timedeltas := [100, 100, 100, 100, 100, 100, 100, 100, 100], timeDelta := 0 }

theorem timekeepResponse_update_discipline_witness :
    timeSyncW.timedeltas.length ≤ TIME_DELTAS_TO_KEEP
    ∧ (handleTimekeepResponse timeSyncW 0 100 0).state.timedeltas.length
        ≤ TIME_DELTAS_TO_KEEP :=
  ⟨by decide, (timekeepResponse_update_discipline timeSyncW 0 100 0 (by decide)).2.2⟩

end SoundSync

namespace SoundSync

/-! NTP codec lemmas. -/

theorem u32be_append_explicit (a b : ℕ) :
    u32be a ++ u32be b
      = [a / 2 ^ 24 % 256, a / 2 ^ 16 % 256, a / 2 ^ 8 % 256, a % 256,
         b / 2 ^ 24 % 256, b / 2 ^ 16 % 256, b / 2 ^ 8 % 256, b % 256] := rfl

theorem parseNtp_explicit_tail (e0 e1 e2 e3 f0 f1 f2 f3 : ℕ) (rest : List ℕ) :
    parseNtpTimestamp (e0 :: e1 :: e2 :: e3 :: f0 :: f1 :: f2 :: f3 :: rest)
      = ((beU32 e0 e1 e2 e3 : ℚ) + (beU32 f0 f1 f2 f3 : ℚ) / 2 ^ 32) * 1000 := rfl

theorem beU32_u32be (a : ℕ) (ha : a < 2 ^ 32) :
    beU32 (a / 2 ^ 24 % 256) (a / 2 ^ 16 % 256) (a / 2 ^ 8 % 256) (a % 256) = a := by
  unfold beU32
  omega

theorem jsToUint32_zero : jsToUint32 0 = 0 := by
  unfold jsToUint32 jsTrunc jsToUint32Int
  rw [if_pos le_rfl, Int.floor_zero]
  simp

theorem jsToUint32Int_natCast (t : ℕ) : jsToUint32Int ((t : ℤ)) = t % 2 ^ 32 := by
  unfold jsToUint32Int
  omega

theorem getNtp_nat_seconds (t : ℕ) :
    getNtpTimestamp ((t : ℚ) * 1000) = u32be (t % 2 ^ 32) ++ u32be 0 := by
  simp only [getNtpTimestamp]
  have h1 : ((t : ℚ) * 1000) / 1000 = (t : ℚ) := by
    rw [mul_div_cancel_right₀]
    norm_num
  rw [h1, Int.floor_natCast]
  have h2 : ((t : ℚ) - (((t : ℕ) : ℤ) : ℚ)) * 2 ^ 32 = 0 := by
    push_cast
    ring
  rw [h2, jsToUint32_zero, jsToUint32Int_natCast]

theorem parseNtp_u32_pair_tail (a : ℕ) (rest : List ℕ) (ha : a < 2 ^ 32) :
    parseNtpTimestamp ((u32be a ++ u32be 0) ++ rest) = (a : ℚ) * 1000 := by
  rw [u32be_append_explicit]
  simp only [List.cons_append, List.nil_append]
  rw [parseNtp_explicit_tail, beU32_u32be a ha]
  norm_num [beU32]

theorem parseNtp_u32_pair (a : ℕ) (ha : a < 2 ^ 32) :
    parseNtpTimestamp (u32be a ++ u32be 0) = (a : ℚ) * 1000 := by
  have h := parseNtp_u32_pair_tail a [] ha
  rwa [List.append_nil] at h

theorem getRtpHeader_length (h : RtpHeader) : (getRtpHeader h).length = 4 := by
  rw [getRtpHeader_eq]
  rfl

theorem getNtp_nat_seconds_length (t : ℕ) :
    (getNtpTimestamp ((t : ℚ) * 1000)).length = 8 := by
  rw [getNtp_nat_seconds]
  rfl

theorem drop_points (H Z N1 N2 N3 : List ℕ) (hH : H.length = 4) (hZ : Z.length = 4)
    (h1 : N1.length = 8) (h2 : N2.length = 8) :
    ((((H ++ Z) ++ N1) ++ N2) ++ N3).drop 8 = N1 ++ (N2 ++ N3)
    ∧ ((((H ++ Z) ++ N1) ++ N2) ++ N3).drop 16 = N2 ++ N3
    ∧ ((((H ++ Z) ++ N1) ++ N2) ++ N3).drop 24 = N3 := by
  refine ⟨?_, ?_, ?_⟩
  · rw [List.append_assoc, List.append_assoc]
    exact List.drop_left' (by simp [hH, hZ])
  · rw [List.append_assoc]
    exact List.drop_left' (by simp [hH, hZ, h1])
  · exact List.drop_left' (by simp [hH, hZ, h1, h2])

theorem parseRtpHeader_cons (b0 b1 b2 b3 : ℕ) (rest : List ℕ) :
    parseRtpHeader (b0 :: b1 :: b2 :: b3 :: rest)
      = Except.ok
          { extension := Nat.land b0 0x10 != 0
            source := Nat.land b0 0x0f
            payloadType :=
              match payloadNameOf (Nat.land b1 0x7f) with
              | some nm => JsPayloadType.name nm
              | none => JsPayloadType.undef
            marker := Nat.land b1 0x80 != 0
            seqnum := b2 * 256 + b3 } := by
  simp only [parseRtpHeader]
  rw [if_neg (by simp)]
  rfl

theorem parse_encode_header_append (e m : Bool) (s q p : ℕ) (nm : PayloadName)
    (rest : List ℕ) (hs : s < 16) (hq : q < 65536) (hp : payloadNameOf p = some nm) :
    parseRtpHeader (getRtpHeader
        { extension := e, source := s, payloadType := JsPayloadType.num p
          marker := m, seqnum := q } ++ rest)
      = Except.ok
          { extension := e, source := s, payloadType := JsPayloadType.name nm
            marker := m, seqnum := q } := by
  have hp128 : p < 128 := by
    unfold payloadNameOf at hp
    split_ifs at hp <;> omega
  rw [getRtpHeader_eq]
  dsimp only [jsNumberBits]
  simp only [List.cons_append, List.nil_append]
  rw [parseRtpHeader_cons]
  rw [lor_ext_lt e s hs, lor_marker_lt m p hp128,
    land_lor_ext_hi e s hs, land_lor_ext_lo e s hs,
    land_lor_marker_hi m p hp128, land_lor_marker_lo m p hp128,
    hp, ite_sixteen_bne_zero, ite_marker_bne_zero]
  simp only [Except.ok.injEq, RtpHeader.mk.injEq, true_and, and_true]
  omega

theorem timingResponsePacket_slots (t k : ℕ) (hk : k < 2 ^ 32) (ref recv : ℚ)
    (h : RtpHeader) :
    parseNtpTimestamp ((timingResponsePacket
          { referenceTime := ref, receivedTime := recv, sendTime := (t : ℚ) }
          h ((k : ℚ) * 1000)).drop 8)
        = ((t % 2 ^ 32 : ℕ) : ℚ) * 1000
    ∧ parseNtpTimestamp ((timingResponsePacket
          { referenceTime := ref, receivedTime := recv, sendTime := (t : ℚ) }
          h ((k : ℚ) * 1000)).drop 16)
        = (k : ℚ) * 1000
    ∧ parseNtpTimestamp ((timingResponsePacket
          { referenceTime := ref, receivedTime := recv, sendTime := (t : ℚ) }
          h ((k : ℚ) * 1000)).drop 24)
        = (k : ℚ) * 1000 := by
  have hmod : t % 2 ^ 32 < 2 ^ 32 := Nat.mod_lt _ (by norm_num)
  have hkk : k % 2 ^ 32 = k := Nat.mod_eq_of_lt hk
  have hsend := getNtp_nat_seconds t
  have hcur := getNtp_nat_seconds k
  have hstruct := drop_points
    (getRtpHeader { h with payloadType := JsPayloadType.num 0x53 })
    [0, 0, 0, 0]
    (getNtpTimestamp ((t : ℚ) * 1000))
    (getNtpTimestamp ((k : ℚ) * 1000))
    (getNtpTimestamp ((k : ℚ) * 1000))
    (getRtpHeader_length _) rfl (getNtp_nat_seconds_length t) (getNtp_nat_seconds_length k)
  refine ⟨?_, ?_, ?_⟩
  · simp only [timingResponsePacket]
    rw [hstruct.1, hsend]
    exact parseNtp_u32_pair_tail (t % 2 ^ 32) _ hmod
  · simp only [timingResponsePacket]
    rw [hstruct.2.1, hcur]
    have := parseNtp_u32_pair_tail (k % 2 ^ 32) (u32be (k % 2 ^ 32) ++ u32be 0) (by omega)
    rw [this, hkk]
  · simp only [timingResponsePacket]
    rw [hstruct.2.2, hcur]
    have := parseNtp_u32_pair (k % 2 ^ 32) (by omega)
    rw [this, hkk]

end SoundSync

namespace SoundSync

/-- Parsed header of the incoming timingRequest used in the scenario. -/
def timingReqHeaderW : RtpHeader :=
  { extension := false, source := 0, payloadType := JsPayloadType.name PayloadName.timingRequest
    marker := false, seqnum := 42 }

/-- C4: the claim says that when the request send-time slot decodes to
t = 1700000000000 ms and the reply is sent at local time 5000 with an
established client port, the first NTP slot of the reply decodes back to
exactly t. The sender instead encodes sendTime * 1000, whose integer-second
part wraps modulo 2^32, so the slot decodes to 3487918080000 ms, not
1700000000000 ms. -/
theorem timingResponse_slot_scaled :
    timingResponse 6001
        { referenceTime := 0, receivedTime := 0, sendTime := (1700000000000 : ℚ) }
        timingReqHeaderW (5000 : ℚ)
      = some (timingResponsePacket
          { referenceTime := 0, receivedTime := 0, sendTime := (1700000000000 : ℚ) }
          timingReqHeaderW (5000 : ℚ))
    ∧ parseNtpTimestamp ((timingResponsePacket
          { referenceTime := 0, receivedTime := 0, sendTime := (1700000000000 : ℚ) }
          timingReqHeaderW (5000 : ℚ)).drop 8)
        = 3487918080000
    ∧ (3487918080000 : ℚ) ≠ 1700000000000 := by
  have hc1 : (1700000000000 : ℚ) = ((1700000000000 : ℕ) : ℚ) := by norm_num
  have hc2 : (5000 : ℚ) = ((5 : ℕ) : ℚ) * 1000 := by norm_num
  refine ⟨by simp only [timingResponse]; rw [if_neg (by norm_num)], ?_, by norm_num⟩
  rw [hc1, hc2]
  rw [(timingResponsePacket_slots 1700000000000 5 (by norm_num) 0 0 timingReqHeaderW).1]
  norm_num

/-- C4 (amended): with an established client port, replying to a
timingRequest whose send-time slot decodes to t ms at local time c (a whole
number of seconds below the 32-bit wrap, in ms) produces a packet with
payload type 0x53 that preserves the original sequence number, whose first
NTP slot decodes to ((t mod 2^32) * 1000) ms - the NTP encoding of
sendTime * 1000 - and whose second and third slots decode to exactly c. -/
theorem timingResponse_reflection (t c : ℕ) (ref recv : ℚ) (origHeader : RtpHeader)
    (clientPort : ℤ) (hport : clientPort ≠ -1)
    (hsrc : origHeader.source < 16) (hseq : origHeader.seqnum < 65536)
    (hc : 1000 ∣ c) (hcb : c < 1000 * 2 ^ 32) :
    timingResponse clientPort
        { referenceTime := ref, receivedTime := recv, sendTime := (t : ℚ) }
        origHeader (c : ℚ)
      = some (timingResponsePacket
          { referenceTime := ref, receivedTime := recv, sendTime := (t : ℚ) }
          origHeader (c : ℚ))
    ∧ parseRtpHeader (timingResponsePacket
          { referenceTime := ref, receivedTime := recv, sendTime := (t : ℚ) }
          origHeader (c : ℚ))
        = Except.ok
            { extension := origHeader.extension, source := origHeader.source
              payloadType := JsPayloadType.name PayloadName.timingResponse
              marker := origHeader.marker, seqnum := origHeader.seqnum }
    ∧ parseNtpTimestamp ((timingResponsePacket
          { referenceTime := ref, receivedTime := recv, sendTime := (t : ℚ) }
          origHeader (c : ℚ)).drop 8)
        = ((t % 2 ^ 32 : ℕ) : ℚ) * 1000
    ∧ parseNtpTimestamp ((timingResponsePacket
          { referenceTime := ref, receivedTime := recv, sendTime := (t : ℚ) }
          origHeader (c : ℚ)).drop 16)
        = (c : ℚ)
    ∧ parseNtpTimestamp ((timingResponsePacket
          { referenceTime := ref, receivedTime := recv, sendTime := (t : ℚ) }
          origHeader (c : ℚ)).drop 24)
        = (c : ℚ) := by
  obtain ⟨k, rfl⟩ := hc
  have hk : k < 2 ^ 32 := by omega
  have hcast : ((1000 * k : ℕ) : ℚ) = (k : ℚ) * 1000 := by
    push_cast
    ring
  rw [hcast]
  have hslots := timingResponsePacket_slots t k hk ref recv origHeader
  refine ⟨by simp only [timingResponse]; rw [if_neg hport], ?_,
    hslots.1, hslots.2.1, hslots.2.2⟩
  simp only [timingResponsePacket]
  rw [List.append_assoc, List.append_assoc, List.append_assoc]
  exact parse_encode_header_append origHeader.extension origHeader.marker
    origHeader.source origHeader.seqnum 0x53 PayloadName.timingResponse _
    hsrc hseq rfl

theorem timingResponse_reflection_witness :
    timingResponse 6001
        { referenceTime := 0, receivedTime := 0, sendTime := ((1700000000000 : ℕ) : ℚ) }
        timingReqHeaderW ((5000 : ℕ) : ℚ)
      = some (timingResponsePacket
          { referenceTime := 0, receivedTime := 0, sendTime := ((1700000000000 : ℕ) : ℚ) }
          timingReqHeaderW ((5000 : ℕ) : ℚ))
    ∧ parseRtpHeader (timingResponsePacket
          { referenceTime := 0, receivedTime := 0, sendTime := ((1700000000000 : ℕ) : ℚ) }
          timingReqHeaderW ((5000 : ℕ) : ℚ))
        = Except.ok
            { extension := false, source := 0
              payloadType := JsPayloadType.name PayloadName.timingResponse
              marker := false, seqnum := 42 }
    ∧ parseNtpTimestamp ((timingResponsePacket
          { referenceTime := 0, receivedTime := 0, sendTime := ((1700000000000 : ℕ) : ℚ) }
          timingReqHeaderW ((5000 : ℕ) : ℚ)).drop 16)
        = ((5000 : ℕ) : ℚ) :=
  ⟨(timingResponse_reflection 1700000000000 5000 0 0 timingReqHeaderW 6001
      (by decide) (by decide) (by decide) (by decide) (by decide)).1,
   (timingResponse_reflection 1700000000000 5000 0 0 timingReqHeaderW 6001
      (by decide) (by decide) (by decide) (by decide) (by decide)).2.1,
   (timingResponse_reflection 1700000000000 5000 0 0 timingReqHeaderW 6001
      (by decide) (by decide) (by decide) (by decide) (by decide)).2.2.2.1⟩

end SoundSync
